import Mathlib

/-!
# Verification of the GreenSnap waste-report backend

Shallow embedding of the classification gateway
(`src/services/classificationService.js` and its near-duplicate canonical
30-second-timeout variant) and of the submission orchestrator
(`src/routes/reportRoutes.js`, `router.post('/')`), with theorems checking
the natural-language specification against the code.

Numbers: JS floating-point confidences are modelled as exact rationals `ℚ`;
all thresholds in the source (0.25, 0.65, 0.7, 0.85) are exactly
representable, so nothing relevant to the compared properties is lost.
Concrete rationals are written with the helper `q` (numerator/denominator in
lowest terms) so that they evaluate by kernel reduction.  Byte strings are
modelled as Lean `String`s; the MD5 digest and the base64 decoder are
external library functions (`crypto`, `Buffer`) and are treated as abstract
function parameters.
-/

set_option autoImplicit false

namespace GreenSnap

/-- A concrete rational given by numerator and denominator in lowest terms;
built by the `Rat.mk'` constructor so that kernel reduction (hence `decide`)
works on it, unlike division-built literals. -/
def q (n : Int) (d : Nat) (h1 : d ≠ 0 := by decide) (h2 : n.natAbs.Coprime d := by decide) : ℚ :=
  Rat.mk' n d h1 h2

theorem q_eq_div (n : Int) (d : Nat) (h1 : d ≠ 0) (h2 : n.natAbs.Coprime d) :
    q n d h1 h2 = (n : ℚ) / (d : ℚ) := by
  rw [q, Rat.mk'_eq_divInt, Rat.divInt_eq_div]
  norm_num

/-- One detector-reported detection: `{class, confidence, ...}`.
`cls` embeds the JS field `class` (a numeric class index). -/
structure Detection where
  cls : Int
  confidence : ℚ
deriving DecidableEq

/-- `const MIN_CONFIDENCE = 0.65;` (0.65 = 13/20 in lowest terms). -/
def MIN_CONFIDENCE : ℚ := q 13 20

/-- `const HIGH_CONFIDENCE_THRESHOLD = 0.85;` (0.85 = 17/20). -/
def HIGH_CONFIDENCE_THRESHOLD : ℚ := q 17 20

theorem MIN_CONFIDENCE_eq : MIN_CONFIDENCE = 65/100 := by
  rw [MIN_CONFIDENCE, q_eq_div]; norm_num

theorem HIGH_CONFIDENCE_THRESHOLD_eq : HIGH_CONFIDENCE_THRESHOLD = 85/100 := by
  rw [HIGH_CONFIDENCE_THRESHOLD, q_eq_div]; norm_num

/-- `Math.max(...)` over a list as the source uses it: the source only
calls it on a non-empty list; the `[]` case is the guarded fallback `0`. -/
def jsMax : List ℚ → ℚ
  | [] => 0
  | x :: xs => xs.foldl max x

/-- `detections.filter(det => det.class === 0)` -/
def wasteDetections (dets : List Detection) : List Detection :=
  dets.filter (fun det => det.cls == 0)

/-- `wasteDetections.length > 0 ? Math.max(...wasteDetections.map(det => det.confidence)) : 0` -/
def maxConfidence (dets : List Detection) : ℚ :=
  let w := wasteDetections dets
  if w.length > 0 then jsMax (w.map (fun det => det.confidence)) else 0

/-- The classification verdict object built by `classifyImage`
(fields in source order; `verification` and `label` kept as strings,
matching the JS string literals). -/
structure ClassificationVerdict where
  isWaste : Bool
  label : String
  confidence : ℚ
  verification : String
  isHighConfidence : Bool
  isVerifiedWaste : Bool
  modelVersion : String
  needsImprovement : Bool
  cacheHit : Bool
deriving DecidableEq

/-- The verdict-derivation block of `classifyImage` (lines 97–124 of the
canonical variant): filter to class 0, take the max confidence, then derive
`isWaste` (threshold `0.25 = q 1 4`), `label`, `verification`,
`isHighConfidence`, `isVerifiedWaste`, `needsImprovement`
(`0.7 = q 7 10`, `0.85 = q 17 20`); a fresh result carries `cacheHit: false`. -/
def classifyDetections (dets : List Detection) : ClassificationVerdict :=
  let maxC := maxConfidence dets
  let isWaste : Bool := decide (maxC ≥ q 1 4)
  let verification : String :=
    if isWaste then
      if maxC ≥ HIGH_CONFIDENCE_THRESHOLD then "high_confidence"
      else if maxC ≥ MIN_CONFIDENCE then "medium_confidence"
      else "unverified"
    else "unverified"
  { isWaste := isWaste
    label := if isWaste then "waste" else "non-waste"
    confidence := maxC
    verification := verification
    isHighConfidence := decide (maxC ≥ HIGH_CONFIDENCE_THRESHOLD)
    isVerifiedWaste := isWaste && decide (maxC ≥ HIGH_CONFIDENCE_THRESHOLD)
    modelVersion := "YOLOv8"
    needsImprovement := isWaste && decide (maxC > q 7 10) && decide (maxC < q 17 20)
    cacheHit := false }

theorem q14_eq : q 1 4 = 25/100 := by rw [q_eq_div]; norm_num

theorem q12_eq : q 1 2 = 5/10 := by rw [q_eq_div]; norm_num

theorem q710_eq : q 7 10 = 7/10 := by rw [q_eq_div]; norm_num

theorem q910_eq : q 9 10 = 9/10 := by rw [q_eq_div]; norm_num

theorem q1320_eq : q 13 20 = 65/100 := by rw [q_eq_div]; norm_num

theorem q1720_eq : q 17 20 = 85/100 := by rw [q_eq_div]; norm_num

example :
    classifyDetections [⟨0, q 9 10⟩] =
      { isWaste := true, label := "waste", confidence := q 9 10,
        verification := "high_confidence", isHighConfidence := true,
        isVerifiedWaste := true, modelVersion := "YOLOv8",
        needsImprovement := false, cacheHit := false } := by
  decide

example :
    classifyDetections [⟨0, q 1 2⟩] =
      { isWaste := true, label := "waste", confidence := q 1 2,
        verification := "unverified", isHighConfidence := false,
        isVerifiedWaste := false, modelVersion := "YOLOv8",
        needsImprovement := false, cacheHit := false } := by
  decide

example :
    classifyDetections [] =
      { isWaste := false, label := "non-waste", confidence := 0,
        verification := "unverified", isHighConfidence := false,
        isVerifiedWaste := false, modelVersion := "YOLOv8",
        needsImprovement := false, cacheHit := false } := by
  decide

/-! ## String utilities

`leadsWith s pat` is "the char list `s` starts with `pat`"; `occursIn pat s`
is JS `String.prototype.includes` over char lists; `dropLead pat s` removes
`pat` from the front of `s` when it is there. -/

def leadsWith : List Char → List Char → Bool
  | _, [] => true
  | [], _ :: _ => false
  | a :: as, b :: bs => a == b && leadsWith as bs

def occursIn (pat : List Char) : List Char → Bool
  | [] => pat.isEmpty
  | c :: rest => leadsWith (c :: rest) pat || occursIn pat rest

/-- JS `s.includes(pat)`. -/
def strIncludes (s pat : String) : Bool :=
  occursIn pat.data s.data

def dropLead : List Char → List Char → Option (List Char)
  | [], s => some s
  | _ :: _, [] => none
  | p :: ps, c :: cs => if p == c then dropLead ps cs else none

/-- JS `\w` (the regexes involved are all ASCII). -/
def isWordChar (c : Char) : Bool :=
  c.isAlphanum || c == '_'

/-- The match of the anchored regex `^data:image\/\w+;base64,`: returns the
remainder after the matched prefix, or `none` when the regex does not match.
(`\w+` is greedy; since `;` is not a word character the maximal munch is the
unique possible match, so no backtracking arises.) -/
def dataUriRest (s : List Char) : Option (List Char) :=
  match dropLead "data:image/".data s with
  | none => none
  | some rest =>
    let w := rest.takeWhile isWordChar
    if w.isEmpty then none
    else dropLead ";base64,".data (rest.drop w.length)

/-- `imageBase64.replace(/^data:image\/\w+;base64,/, '')` -/
def stripDataUri (s : String) : String :=
  match dataUriRest s.data with
  | some tail => String.mk tail
  | none => s

example : stripDataUri "data:image/jpeg;base64,AAAA" = "AAAA" := by decide
example : stripDataUri "AAAA" = "AAAA" := by decide
example : stripDataUri "data:image/;base64,AAAA" = "data:image/;base64,AAAA" := by decide

/-! ## Detector response shapes and the error taxonomy -/

/-- An element of the JSON `images` array; `results` is `none` when the
field is absent. -/
structure ImageEntry where
  results : Option (List Detection)
deriving DecidableEq

/-- An element of the JSON `predictions` array; `detections` is `none` when
the field is absent. -/
structure PredictionEntry where
  detections : Option (List Detection)
deriving DecidableEq

/-- The parsed detector JSON body; each top-level field is `none` when
absent.  (In JS an array is truthy even when empty, so presence is what the
`data.images && data.images[0] && data.images[0].results` chain tests,
besides the existence of element 0.) -/
structure ApiResponse where
  images : Option (List ImageEntry)
  predictions : Option (List PredictionEntry)
deriving DecidableEq

/-- The detection-extraction chain of `classifyImage` (lines 81–88): prefer
`images[0].results`, fall back to `predictions[0].detections`, default `[]`. -/
def extractDetections (data : ApiResponse) : List Detection :=
  match data.images with
  | some (e :: _) =>
    match e.results with
    | some r => r
    | none => extractFallback data
  | _ => extractFallback data
where
  extractFallback (data : ApiResponse) : List Detection :=
    match data.predictions with
    | some (e :: _) =>
      match e.detections with
      | some r => r
      | none => []
    | _ => []

/-- A thrown JS error as far as the `catch` block inspects it. -/
structure JsError where
  name : String
  message : String
deriving DecidableEq

/-- The three error kinds `classifyImage` can fail with. -/
inductive ServiceFailure where
  | serviceTimeout (message : String)
  | serviceDown (message : String)
  | serviceError (message : String)
deriving DecidableEq

/-- `setTimeout(() => controller.abort(), 30000)` — the canonical gateway's
bounded wait, in milliseconds. -/
def TIMEOUT_MS : ℕ := 30000

/-- The `catch` block of `classifyImage` (lines 132–145): dispatch on the
error's `name` and on substrings of its `message`. -/
def mapClassifyError (e : JsError) : ServiceFailure :=
  if e.name == "AbortError" then
    .serviceTimeout "SERVICE_TIMEOUT: Request timed out after 30 seconds"
  else if strIncludes e.message "ECONNREFUSED" || strIncludes e.message "ENOTFOUND" then
    .serviceDown "SERVICE_DOWN: API server is unreachable"
  else if strIncludes e.message "SERVICE_TIMEOUT" then
    .serviceTimeout "SERVICE_TIMEOUT: Request timed out"
  else
    .serviceError ("SERVICE_ERROR: " ++ e.message)

/-- What the awaited `fetch`/response processing can come to inside the
`try` block: a parsed success body, a non-ok HTTP response, an abort fired
by the 30 s timer, or a network-level exception with its message. -/
inductive FetchOutcome where
  | success (data : ApiResponse)
  | httpError (status : ℕ) (body : String)
  | abortError
  | fetchError (message : String)
deriving DecidableEq

/-- The body of `classifyImage` after a cache miss: on a success response
derive the verdict from the extracted detections; otherwise the `try` block
throws (`API_ERROR` for non-ok statuses, the library error otherwise) and
the `catch` block maps the thrown error.  `node-fetch` abort errors carry
`name = "AbortError"`; its network errors carry `name = "FetchError"`. -/
def classifyOutcome : FetchOutcome → Except ServiceFailure ClassificationVerdict
  | .success data => .ok (classifyDetections (extractDetections data))
  | .httpError status body =>
    .error (mapClassifyError ⟨"Error", "API_ERROR: " ++ toString status ++ " - " ++ body⟩)
  | .abortError => .error (mapClassifyError ⟨"AbortError", "The operation was aborted"⟩)
  | .fetchError msg => .error (mapClassifyError ⟨"FetchError", msg⟩)

/-! ## The result cache and the full gateway call -/

/-- `imageCache.set(hash, result)` plus
`setTimeout(() => imageCache.delete(hash), 300000)`: a cache entry is the
key, the stored verdict, and the instant the deletion timer fires. -/
abbrev CacheEntry := String × ClassificationVerdict × ℕ

/-- 5-minute TTL in milliseconds. -/
def CACHE_TTL_MS : ℕ := 300000

/-- `imageCache.has(hash)` / `imageCache.get(hash)` at instant `now`: an
entry is visible until its deletion timer fires. -/
def cacheGet (cache : List CacheEntry) (now : ℕ) (k : String) :
    Option ClassificationVerdict :=
  match cache.find? (fun e => e.1 == k) with
  | some (_, v, exp) => if now < exp then some v else none
  | none => none

/-- `imageCache.set(hash, result)`: `Map.set` replaces an existing key. -/
def cachePut (cache : List CacheEntry) (k : String) (v : ClassificationVerdict)
    (exp : ℕ) : List CacheEntry :=
  (k, v, exp) :: cache.filter (fun e => !(e.1 == k))

/-- Result of one `classifyImage` call: the returned verdict or thrown
failure, the cache afterwards, and whether the detector request was made. -/
structure ClassifyCall where
  result : Except ServiceFailure ClassificationVerdict
  cache : List CacheEntry
  detectorCalled : Bool

/-- `classifyImage(imageBase64)` of the canonical gateway, as a state
transformer over the module-level cache.  The MD5 digest (`crypto`, a
library function external to this repository) is the abstract parameter
`md5`; `hash` is computed from the *incoming* string, before the data-URI
prefix is stripped.  On a cache hit the call returns a copy of the stored
verdict with `cacheHit: true` and performs no request; on a miss the
detector outcome is `outcome`, and a fresh verdict is stored with a
5-minute deletion timer. -/
def classifyImage (md5 : String → String) (cache : List CacheEntry) (now : ℕ)
    (imageBase64 : String) (outcome : FetchOutcome) : ClassifyCall :=
  let hash := md5 imageBase64
  match cacheGet cache now hash with
  | some v => ⟨.ok { v with cacheHit := true }, cache, false⟩
  | none =>
    match classifyOutcome outcome with
    | .ok result => ⟨.ok result, cachePut cache hash result (now + CACHE_TTL_MS), true⟩
    | .error e => ⟨.error e, cache, true⟩

/-! ## The submission orchestrator (`router.post('/')` in `reportRoutes.js`)

The handler is modelled as a pure function of the request body and of
oracles for the external effects it awaits: the classification result the
gateway would produce, the Cloudinary upload outcome, the Mongoose save
outcome, and the user-ledger update outcome.  The base64 decoder
(`Buffer.from(..., 'base64').length`) is the abstract parameter `dl`.
Alongside the HTTP result we track which external calls were attempted. -/

/-- JS truthiness of an optional string field (`undefined` and `""` are
falsy; every other string is truthy). -/
def truthyStr : Option String → Bool
  | none => false
  | some s => !(s == "")

/-- JS truthiness of an optional numeric field (`undefined` and `0` are
falsy; exact rationals have no `NaN`). -/
def truthyNum : Option ℚ → Bool
  | none => false
  | some x => decide (x ≠ 0)

/-- The destructured request body of `POST /api/report`.  `none` is an
absent (`undefined`) field; `forceSubmit` is taken as a boolean. -/
structure SubmitRequest where
  title : Option String
  image : Option String
  details : Option String
  address : Option String
  latitude : Option ℚ
  longitude : Option ℚ
  reportType : Option String
  forceSubmit : Bool
deriving DecidableEq

/-- `[A-Za-z0-9+/=]` -/
def isB64Char (c : Char) : Bool :=
  c.isAlpha || c.isDigit || c == '+' || c == '/' || c == '='

/-- The validation regex `/^(data:image\/\w+;base64,)?[A-Za-z0-9+/=]+$/`:
either the optional data-URI group matches and the remainder is one or more
base64 characters, or the whole string is one or more base64 characters. -/
def validImagePattern (s : String) : Bool :=
  (match dataUriRest s.data with
   | some rest => !rest.isEmpty && rest.all isB64Char
   | none => false)
  || (!s.data.isEmpty && s.data.all isB64Char)

/-- The `missingFields` accumulation (lines 41–46), in source order;
`latitude`/`longitude` jointly contribute the single entry `"location"`. -/
def missingFieldsOf (req : SubmitRequest) : List String :=
  (if truthyStr req.title then [] else ["title"]) ++
  (if truthyStr req.image then [] else ["image"]) ++
  (if truthyStr req.details then [] else ["details"]) ++
  (if truthyStr req.address then [] else ["address"]) ++
  (if truthyNum req.latitude && truthyNum req.longitude then [] else ["location"])

/-- `await cloudinary.uploader.upload(...)` raced against a 15 s timer. -/
inductive UploadOutcome where
  | ok (secureUrl publicId : String)
  | timeout
  | failure (message : String)
deriving DecidableEq

/-- `await newReport.save()`: success, a Mongoose `ValidationError`, or any
other error. -/
inductive PersistOutcome where
  | ok
  | validationError (message : String)
  | failure (message : String)
deriving DecidableEq

/-- `await User.findByIdAndUpdate(...)` (the point-ledger update). -/
inductive LedgerOutcome where
  | ok
  | failure (message : String)
deriving DecidableEq

/-- The `aiVerification` sub-object stored on the report. -/
structure AiVerification where
  isWaste : Bool
  confidence : ℚ
  verification : String
deriving DecidableEq

/-- The persisted report record, restricted to the fields the handler
itself computes (`photoTimestamp` and the owning user id are copied from
request/session and are orthogonal to every claim). -/
structure ReportRecord where
  title : String
  image : String
  publicId : String
  details : String
  address : String
  reportType : String
  longitude : ℚ
  latitude : ℚ
  aiVerification : Option AiVerification
deriving DecidableEq

/-- The `201` response body. -/
structure SubmitSuccess where
  report : ReportRecord
  pointsEarned : ℕ
  classification : Option ClassificationVerdict
deriving DecidableEq

/-- The handler's HTTP outcome: an error response with its status and
machine-readable `code` (plus the `missingFields` list when the code is
`MISSING_FIELDS`), or the `201` success body. -/
inductive SubmitResult where
  | response (status : ℕ) (code : String) (missingFields : List String)
  | success (status : ℕ) (body : SubmitSuccess)
deriving DecidableEq

/-- Which external calls the handler attempted. -/
structure Effects where
  detectorCalled : Bool
  uploadAttempted : Bool
  persistAttempted : Bool
  ledgerAttempted : Bool
deriving DecidableEq

def noEffects : Effects := ⟨false, false, false, false⟩

/-- The validation phase (lines 31–62), in evaluation order.  The very
first statement dereferences `image`
(`const base64Data = image.replace(...)`), so an absent `image` throws a
`TypeError` that only the handler's outer `catch` sees, producing the
generic 500 `INTERNAL_SERVER_ERROR` (its `name` is not `'ValidationError'`).
Then: the 5 MB decoded-size check, the missing-fields check, and the
base64-pattern check.  `none` means validation passed. -/
def validate (dl : String → ℕ) (req : SubmitRequest) : Option SubmitResult :=
  match req.image with
  | none => some (.response 500 "INTERNAL_SERVER_ERROR" [])
  | some img =>
    if dl (stripDataUri img) > 5 * 1024 * 1024 then
      some (.response 413 "IMAGE_TOO_LARGE" [])
    else if !(missingFieldsOf req).isEmpty then
      some (.response 400 "MISSING_FIELDS" (missingFieldsOf req))
    else if !validImagePattern img then
      some (.response 400 "INVALID_IMAGE_FORMAT" [])
    else none

/-- `reportType || 'standard'` -/
def finalReportTypeOf : Option String → String
  | none => "standard"
  | some t => if t == "" then "standard" else t

/-- `pointsMap[finalReportType] || 10` with
`pointsMap = { standard: 10, hazardous: 20, large: 15 }`. -/
def pointsFor (t : String) : ℕ :=
  if t == "standard" then 10
  else if t == "hazardous" then 20
  else if t == "large" then 15
  else 10

/-- Steps 3–5 of the handler (hosting, persisting, awarding): Cloudinary
upload with its 504/500 mapping, `newReport.save()` with the outer catch's
400/500 mapping, then the ledger update whose failure is only logged —
the `201` response is built the same way whether `ledger` succeeded or not. -/
def hostPersistAward (req : SubmitRequest)
    (classification : Option ClassificationVerdict) (det : Bool)
    (upload : UploadOutcome) (persist : PersistOutcome) (ledger : LedgerOutcome) :
    SubmitResult × Effects :=
  match upload with
  | .timeout => (.response 504 "CLOUDINARY_TIMEOUT" [], ⟨det, true, false, false⟩)
  | .failure _ => (.response 500 "CLOUDINARY_ERROR" [], ⟨det, true, false, false⟩)
  | .ok url pid =>
    match persist with
    | .validationError _ => (.response 400 "VALIDATION_ERROR" [], ⟨det, true, true, false⟩)
    | .failure _ => (.response 500 "INTERNAL_SERVER_ERROR" [], ⟨det, true, true, false⟩)
    | .ok =>
      let rt := finalReportTypeOf req.reportType
      let report : ReportRecord :=
        { title := (req.title.getD "").trim
          image := url
          publicId := pid
          details := (req.details.getD "").trim
          address := (req.address.getD "").trim
          reportType := rt
          longitude := req.longitude.getD 0
          latitude := req.latitude.getD 0
          aiVerification := classification.map
            (fun c => ⟨c.isWaste, c.confidence, c.verification⟩) }
      (.success 201 ⟨report, pointsFor rt, classification⟩, ⟨det, true, true, true⟩)

/-- The whole `router.post('/')` handler: validation, then the
classification gate (skipped when `forceSubmit` is set; `NOT_WASTE` when
the verdict is not waste, `LOW_CONFIDENCE` when its confidence is below
`0.7 = q 7 10`, `SERVICE_UNAVAILABLE` when the gateway threw), then
hosting/persisting/awarding. -/
def submit (dl : String → ℕ) (req : SubmitRequest)
    (classifyResult : Except ServiceFailure ClassificationVerdict)
    (upload : UploadOutcome) (persist : PersistOutcome) (ledger : LedgerOutcome) :
    SubmitResult × Effects :=
  match validate dl req with
  | some r => (r, noEffects)
  | none =>
    if req.forceSubmit then hostPersistAward req none false upload persist ledger
    else
      match classifyResult with
      | .error _ => (.response 503 "SERVICE_UNAVAILABLE" [], ⟨true, false, false, false⟩)
      | .ok c =>
        if !c.isWaste then
          (.response 400 "NOT_WASTE" [], ⟨true, false, false, false⟩)
        else if c.confidence < q 7 10 then
          (.response 400 "LOW_CONFIDENCE" [], ⟨true, false, false, false⟩)
        else hostPersistAward req (some c) true upload persist ledger

/-! ## Facts about the JS max over the filtered detection list -/

theorem jsMax_mem (l : List ℚ) (hl : l ≠ []) : jsMax l ∈ l := by
  match l with
  | x :: xs =>
    have hmax : (x :: xs).max? = some (jsMax (x :: xs)) := rfl
    exact List.max?_mem (fun a b => max_choice a b) hmax

theorem jsMax_ub (l : List ℚ) (b : ℚ) (hb : b ∈ l) : b ≤ jsMax l := by
  match l, hb with
  | x :: xs, hb =>
    have hmax : (x :: xs).max? = some (jsMax (x :: xs)) := rfl
    exact (List.max?_le_iff (fun a b c => max_le_iff) hmax).mp (le_refl _) b hb

theorem maxConfidence_of_empty (dets : List Detection) (h : wasteDetections dets = []) :
    maxConfidence dets = 0 := by
  simp [maxConfidence, h]

theorem maxConfidence_eq_jsMax (dets : List Detection) (h : wasteDetections dets ≠ []) :
    maxConfidence dets = jsMax ((wasteDetections dets).map (fun d => d.confidence)) := by
  have hlen : (wasteDetections dets).length > 0 := List.length_pos.mpr h
  simp [maxConfidence, hlen]

theorem maxConfidence_mem (dets : List Detection) (h : wasteDetections dets ≠ []) :
    maxConfidence dets ∈ (wasteDetections dets).map (fun d => d.confidence) := by
  rw [maxConfidence_eq_jsMax dets h]
  exact jsMax_mem _ (by simp [h])

theorem maxConfidence_ub (dets : List Detection) (d : Detection)
    (hd : d ∈ wasteDetections dets) : d.confidence ≤ maxConfidence dets := by
  have hne : wasteDetections dets ≠ [] := List.ne_nil_of_mem hd
  rw [maxConfidence_eq_jsMax dets hne]
  exact jsMax_ub _ _ (List.mem_map_of_mem _ hd)

/-- C1: for every detection list, `classifyImage` filters detections to
class 0, takes `confidence` as the maximum confidence among them (0 if
none), and derives the verdict fields exactly as: `isWaste` iff
`confidence ≥ 0.25`; `label = "waste"` iff `isWaste` else `"non-waste"`;
`verification = "high_confidence"` if `isWaste` and `confidence ≥ 0.85`,
else `"medium_confidence"` if `isWaste` and `confidence ≥ 0.65`, else
`"unverified"`; `isHighConfidence` iff `confidence ≥ 0.85`;
`isVerifiedWaste` iff `isWaste` and `confidence ≥ 0.85`;
`needsImprovement` iff `isWaste` and `0.7 < confidence < 0.85`. -/
theorem classify_verdict_fields_c1 (dets : List Detection) :
    (wasteDetections dets = [] → (classifyDetections dets).confidence = 0) ∧
    (wasteDetections dets ≠ [] →
      (classifyDetections dets).confidence ∈
        (wasteDetections dets).map (fun d => d.confidence) ∧
      ∀ d ∈ wasteDetections dets, d.confidence ≤ (classifyDetections dets).confidence) ∧
    ((classifyDetections dets).isWaste = true ↔
      (classifyDetections dets).confidence ≥ 25/100) ∧
    ((classifyDetections dets).label =
      if (classifyDetections dets).isWaste then "waste" else "non-waste") ∧
    ((classifyDetections dets).verification =
      if (classifyDetections dets).isWaste ∧ (classifyDetections dets).confidence ≥ 85/100
        then "high_confidence"
      else if (classifyDetections dets).isWaste ∧ (classifyDetections dets).confidence ≥ 65/100
        then "medium_confidence"
      else "unverified") ∧
    ((classifyDetections dets).isHighConfidence = true ↔
      (classifyDetections dets).confidence ≥ 85/100) ∧
    ((classifyDetections dets).isVerifiedWaste = true ↔
      (classifyDetections dets).isWaste = true ∧
      (classifyDetections dets).confidence ≥ 85/100) ∧
    ((classifyDetections dets).needsImprovement = true ↔
      (classifyDetections dets).isWaste = true ∧
      7/10 < (classifyDetections dets).confidence ∧
      (classifyDetections dets).confidence < 85/100) := by
  have hconf : (classifyDetections dets).confidence = maxConfidence dets := rfl
  have hisW : (classifyDetections dets).isWaste =
      decide (maxConfidence dets ≥ q 1 4) := rfl
  have hlab : (classifyDetections dets).label =
      (if decide (maxConfidence dets ≥ q 1 4) = true then "waste" else "non-waste") := rfl
  have hver : (classifyDetections dets).verification =
      (if decide (maxConfidence dets ≥ q 1 4) = true then
        (if maxConfidence dets ≥ q 17 20 then "high_confidence"
         else if maxConfidence dets ≥ q 13 20 then "medium_confidence"
         else "unverified")
       else "unverified") := rfl
  have hhc : (classifyDetections dets).isHighConfidence =
      decide (maxConfidence dets ≥ q 17 20) := rfl
  have hvw : (classifyDetections dets).isVerifiedWaste =
      (decide (maxConfidence dets ≥ q 1 4) && decide (maxConfidence dets ≥ q 17 20)) := rfl
  have hni : (classifyDetections dets).needsImprovement =
      (decide (maxConfidence dets ≥ q 1 4) && decide (maxConfidence dets > q 7 10)
        && decide (maxConfidence dets < q 17 20)) := rfl
  rw [← q14_eq, ← q1720_eq, ← q1320_eq, ← q710_eq]
  refine ⟨fun h => by rw [hconf, maxConfidence_of_empty dets h],
          fun h => ⟨by rw [hconf]; exact maxConfidence_mem dets h,
                    fun d hd => by rw [hconf]; exact maxConfidence_ub dets d hd⟩,
          ?_, ?_, ?_, ?_, ?_, ?_⟩
  · rw [hisW, hconf]; simp
  · rw [hlab, hisW]
  · rw [hver, hisW, hconf]
    by_cases h1 : maxConfidence dets ≥ q 1 4 <;>
      by_cases h2 : maxConfidence dets ≥ q 17 20 <;>
        by_cases h3 : maxConfidence dets ≥ q 13 20 <;>
          simp [h1, h2, h3]
  · rw [hhc, hconf]; simp
  · rw [hvw, hisW, hconf]; simp
  · rw [hni, hisW, hconf]; simp [and_assoc]

/-- Witness for C1 at the concrete detection list `[{class: 0, confidence: 0.9}]`. -/
theorem classify_verdict_fields_c1_witness :
    (wasteDetections [⟨0, q 9 10⟩] = [] →
      (classifyDetections [⟨0, q 9 10⟩]).confidence = 0) ∧
    (wasteDetections [⟨0, q 9 10⟩] ≠ [] →
      (classifyDetections [⟨0, q 9 10⟩]).confidence ∈
        (wasteDetections [⟨0, q 9 10⟩]).map (fun d => d.confidence) ∧
      ∀ d ∈ wasteDetections [⟨0, q 9 10⟩],
        d.confidence ≤ (classifyDetections [⟨0, q 9 10⟩]).confidence) ∧
    ((classifyDetections [⟨0, q 9 10⟩]).isWaste = true ↔
      (classifyDetections [⟨0, q 9 10⟩]).confidence ≥ 25/100) ∧
    ((classifyDetections [⟨0, q 9 10⟩]).label =
      if (classifyDetections [⟨0, q 9 10⟩]).isWaste then "waste" else "non-waste") ∧
    ((classifyDetections [⟨0, q 9 10⟩]).verification =
      if (classifyDetections [⟨0, q 9 10⟩]).isWaste ∧
          (classifyDetections [⟨0, q 9 10⟩]).confidence ≥ 85/100
        then "high_confidence"
      else if (classifyDetections [⟨0, q 9 10⟩]).isWaste ∧
          (classifyDetections [⟨0, q 9 10⟩]).confidence ≥ 65/100
        then "medium_confidence"
      else "unverified") ∧
    ((classifyDetections [⟨0, q 9 10⟩]).isHighConfidence = true ↔
      (classifyDetections [⟨0, q 9 10⟩]).confidence ≥ 85/100) ∧
    ((classifyDetections [⟨0, q 9 10⟩]).isVerifiedWaste = true ↔
      (classifyDetections [⟨0, q 9 10⟩]).isWaste = true ∧
      (classifyDetections [⟨0, q 9 10⟩]).confidence ≥ 85/100) ∧
    ((classifyDetections [⟨0, q 9 10⟩]).needsImprovement = true ↔
      (classifyDetections [⟨0, q 9 10⟩]).isWaste = true ∧
      7/10 < (classifyDetections [⟨0, q 9 10⟩]).confidence ∧
      (classifyDetections [⟨0, q 9 10⟩]).confidence < 85/100) :=
  classify_verdict_fields_c1 [⟨0, q 9 10⟩]

/-- C7: for every verdict produced by classify, assuming each
detector-reported detection confidence lies in `[0,1]`: `confidence` lies
in `[0,1]`; `verification = "high_confidence"` implies
`confidence ≥ 0.85`; `verification = "medium_confidence"` implies
`0.65 ≤ confidence < 0.85`; and either of those two values implies
`isWaste = true`. -/
theorem classify_invariants_c7 (dets : List Detection)
    (h : ∀ d ∈ dets, 0 ≤ d.confidence ∧ d.confidence ≤ 1) :
    (0 ≤ (classifyDetections dets).confidence ∧
      (classifyDetections dets).confidence ≤ 1) ∧
    ((classifyDetections dets).verification = "high_confidence" →
      (classifyDetections dets).confidence ≥ 85/100) ∧
    ((classifyDetections dets).verification = "medium_confidence" →
      65/100 ≤ (classifyDetections dets).confidence ∧
      (classifyDetections dets).confidence < 85/100) ∧
    ((classifyDetections dets).verification = "high_confidence" ∨
      (classifyDetections dets).verification = "medium_confidence" →
      (classifyDetections dets).isWaste = true) := by
  have hconf : (classifyDetections dets).confidence = maxConfidence dets := rfl
  have hisW : (classifyDetections dets).isWaste =
      decide (maxConfidence dets ≥ q 1 4) := rfl
  have hver : (classifyDetections dets).verification =
      (if decide (maxConfidence dets ≥ q 1 4) = true then
        (if maxConfidence dets ≥ q 17 20 then "high_confidence"
         else if maxConfidence dets ≥ q 13 20 then "medium_confidence"
         else "unverified")
       else "unverified") := rfl
  have hbounds : 0 ≤ maxConfidence dets ∧ maxConfidence dets ≤ 1 := by
    by_cases hw : wasteDetections dets = []
    · rw [maxConfidence_of_empty dets hw]; norm_num
    · obtain ⟨d, hd, hdc⟩ := List.mem_map.mp (maxConfidence_mem dets hw)
      have hdets : d ∈ dets := (List.mem_filter.mp hd).1
      rw [← hdc]; exact h d hdets
  refine ⟨by rw [hconf]; exact hbounds, ?_, ?_, ?_⟩
  · rw [hver, hconf, ← q1720_eq]
    by_cases h1 : maxConfidence dets ≥ q 1 4 <;>
      by_cases h2 : maxConfidence dets ≥ q 17 20 <;>
        by_cases h3 : maxConfidence dets ≥ q 13 20 <;>
          simp [h1, h2, h3]
  · rw [hver, hconf, ← q1720_eq, ← q1320_eq]
    by_cases h1 : maxConfidence dets ≥ q 1 4 <;>
      by_cases h2 : maxConfidence dets ≥ q 17 20 <;>
        by_cases h3 : maxConfidence dets ≥ q 13 20 <;>
          simp [h1, h2, h3]
    exact lt_of_not_le h2
  · rw [hver, hisW]
    by_cases h1 : maxConfidence dets ≥ q 1 4 <;>
      by_cases h2 : maxConfidence dets ≥ q 17 20 <;>
        by_cases h3 : maxConfidence dets ≥ q 13 20 <;>
          simp [h1, h2, h3]

/-- Witness for C7 at the concrete detection list `[{class: 0, confidence: 0.9}]`. -/
theorem classify_invariants_c7_witness :
    (0 ≤ (classifyDetections [⟨0, q 9 10⟩]).confidence ∧
      (classifyDetections [⟨0, q 9 10⟩]).confidence ≤ 1) ∧
    ((classifyDetections [⟨0, q 9 10⟩]).verification = "high_confidence" →
      (classifyDetections [⟨0, q 9 10⟩]).confidence ≥ 85/100) ∧
    ((classifyDetections [⟨0, q 9 10⟩]).verification = "medium_confidence" →
      65/100 ≤ (classifyDetections [⟨0, q 9 10⟩]).confidence ∧
      (classifyDetections [⟨0, q 9 10⟩]).confidence < 85/100) ∧
    ((classifyDetections [⟨0, q 9 10⟩]).verification = "high_confidence" ∨
      (classifyDetections [⟨0, q 9 10⟩]).verification = "medium_confidence" →
      (classifyDetections [⟨0, q 9 10⟩]).isWaste = true) :=
  classify_invariants_c7 [⟨0, q 9 10⟩] (by decide)

/-! ## Cache behaviour (C2, C10) -/

theorem cacheGet_cachePut (cache : List CacheEntry) (k : String)
    (v : ClassificationVerdict) (exp now : ℕ) (h : now < exp) :
    cacheGet (cachePut cache k v exp) now k = some v := by
  simp [cacheGet, cachePut, List.find?_cons_of_pos, h]

theorem cacheGet_cachePut_ne (cache : List CacheEntry) (k k' : String)
    (v : ClassificationVerdict) (exp now : ℕ) (h : k ≠ k') :
    cacheGet (cachePut cache k v exp) now k' = cacheGet (cache.filter (fun e => !(e.1 == k))) now k' := by
  simp [cacheGet, cachePut, List.find?_cons_of_neg, h]

theorem classifyImage_miss (md5 : String → String) (cache : List CacheEntry)
    (now : ℕ) (img : String) (outcome : FetchOutcome)
    (h : cacheGet cache now (md5 img) = none) :
    classifyImage md5 cache now img outcome =
      (match classifyOutcome outcome with
       | .ok result =>
         ⟨.ok result, cachePut cache (md5 img) result (now + CACHE_TTL_MS), true⟩
       | .error e => ⟨.error e, cache, true⟩) := by
  simp only [classifyImage]
  rw [h]

theorem classifyImage_hit (md5 : String → String) (cache : List CacheEntry)
    (now : ℕ) (img : String) (outcome : FetchOutcome) (v : ClassificationVerdict)
    (h : cacheGet cache now (md5 img) = some v) :
    classifyImage md5 cache now img outcome =
      ⟨.ok { v with cacheHit := true }, cache, false⟩ := by
  simp only [classifyImage]
  rw [h]

/-- C2: for every image payload classified twice within 5 minutes
(byte-identical input, the first call a fresh computation from a successful
detector response), the second call returns a verdict with the same
`confidence`, `isWaste` and `verification` as the first and with
`cacheHit = true`, while the freshly computed verdict stored on the first
call carries `cacheHit = false`; the second call makes no detector request. -/
theorem classify_cache_hit_c2 (md5 : String → String) (cache : List CacheEntry)
    (now later : ℕ) (img : String) (data : ApiResponse) (o2 : FetchOutcome)
    (hmiss : cacheGet cache now (md5 img) = none)
    (hwithin : later < now + CACHE_TTL_MS) :
    ∃ v w : ClassificationVerdict,
      (classifyImage md5 cache now img (.success data)).result = .ok v ∧
      v.cacheHit = false ∧
      (classifyImage md5 (classifyImage md5 cache now img (.success data)).cache
          later img o2).result = .ok w ∧
      (classifyImage md5 (classifyImage md5 cache now img (.success data)).cache
          later img o2).detectorCalled = false ∧
      w.cacheHit = true ∧ w.confidence = v.confidence ∧ w.isWaste = v.isWaste ∧
      w.verification = v.verification := by
  have h1 : classifyImage md5 cache now img (.success data) =
      ⟨.ok (classifyDetections (extractDetections data)),
       cachePut cache (md5 img) (classifyDetections (extractDetections data))
         (now + CACHE_TTL_MS), true⟩ := by
    rw [classifyImage_miss md5 cache now img _ hmiss]
    rfl
  have hget := cacheGet_cachePut cache (md5 img)
    (classifyDetections (extractDetections data)) (now + CACHE_TTL_MS) later hwithin
  have h2 : classifyImage md5 (classifyImage md5 cache now img (.success data)).cache
      later img o2 =
      ⟨.ok { classifyDetections (extractDetections data) with cacheHit := true },
       cachePut cache (md5 img) (classifyDetections (extractDetections data))
         (now + CACHE_TTL_MS), false⟩ := by
    rw [h1]
    exact classifyImage_hit md5 _ later img o2 _ hget
  exact ⟨classifyDetections (extractDetections data),
         { classifyDetections (extractDetections data) with cacheHit := true },
         by rw [h1], rfl, by rw [h2], by rw [h2], rfl, rfl, rfl, rfl⟩

/-- Witness for C2: identity digest, empty cache, a high-confidence
response, the second call 1 second after the first. -/
theorem classify_cache_hit_c2_witness :
    ∃ v w : ClassificationVerdict,
      (classifyImage (fun s => s) [] 0 "abc"
        (.success ⟨some [⟨some [⟨0, q 9 10⟩]⟩], none⟩)).result = .ok v ∧
      v.cacheHit = false ∧
      (classifyImage (fun s => s)
          (classifyImage (fun s => s) [] 0 "abc"
            (.success ⟨some [⟨some [⟨0, q 9 10⟩]⟩], none⟩)).cache
          1000 "abc" .abortError).result = .ok w ∧
      (classifyImage (fun s => s)
          (classifyImage (fun s => s) [] 0 "abc"
            (.success ⟨some [⟨some [⟨0, q 9 10⟩]⟩], none⟩)).cache
          1000 "abc" .abortError).detectorCalled = false ∧
      w.cacheHit = true ∧ w.confidence = v.confidence ∧ w.isWaste = v.isWaste ∧
      w.verification = v.verification :=
  classify_cache_hit_c2 (fun s => s) [] 0 1000 "abc"
    ⟨some [⟨some [⟨0, q 9 10⟩]⟩], none⟩ .abortError (by decide) (by decide)

/-! ## Error taxonomy (C4) -/

/-- C4 counterexample: the claim says every non-success HTTP status fails
with `ServiceError`, but a non-ok response whose body contains
`"ECONNREFUSED"` is thrown as `API_ERROR: 500 - ECONNREFUSED`, and the
`catch` block's substring dispatch then maps it to `SERVICE_DOWN`
(`ServiceUnreachable`), not `SERVICE_ERROR`. -/
theorem classify_error_taxonomy_c4_counterexample :
    classifyOutcome (.httpError 500 "ECONNREFUSED") =
      .error (.serviceDown "SERVICE_DOWN: API server is unreachable") := by
  rfl

/-- C4 (amended): classify fails only with the three kinds
`ServiceTimeout`/`ServiceUnreachable`/`ServiceError`; the wait is bounded by
30 seconds and expiry (abort) fails with `ServiceTimeout`; exceptions whose
message contains `ECONNREFUSED`/`ENOTFOUND` fail with `ServiceUnreachable`;
every other exception — including a non-success HTTP status — fails with
`ServiceError` carrying the underlying message, *provided* the resulting
message text does not itself contain `ECONNREFUSED`/`ENOTFOUND` (which route
to `ServiceUnreachable`) or `SERVICE_TIMEOUT` (which routes to
`ServiceTimeout`). -/
theorem classify_error_taxonomy_c4 :
    TIMEOUT_MS = 30000 ∧
    (∀ o : FetchOutcome, ∀ e : ServiceFailure, classifyOutcome o = .error e →
      (∃ m, e = .serviceTimeout m) ∨ (∃ m, e = .serviceDown m) ∨
      (∃ m, e = .serviceError m)) ∧
    classifyOutcome .abortError =
      .error (.serviceTimeout "SERVICE_TIMEOUT: Request timed out after 30 seconds") ∧
    (∀ msg, (strIncludes msg "ECONNREFUSED" || strIncludes msg "ENOTFOUND") = true →
      classifyOutcome (.fetchError msg) =
        .error (.serviceDown "SERVICE_DOWN: API server is unreachable")) ∧
    (∀ status body,
      strIncludes ("API_ERROR: " ++ toString status ++ " - " ++ body) "ECONNREFUSED" = false →
      strIncludes ("API_ERROR: " ++ toString status ++ " - " ++ body) "ENOTFOUND" = false →
      strIncludes ("API_ERROR: " ++ toString status ++ " - " ++ body) "SERVICE_TIMEOUT" = false →
      classifyOutcome (.httpError status body) =
        .error (.serviceError
          ("SERVICE_ERROR: " ++ ("API_ERROR: " ++ toString status ++ " - " ++ body)))) ∧
    (∀ msg, strIncludes msg "ECONNREFUSED" = false → strIncludes msg "ENOTFOUND" = false →
      strIncludes msg "SERVICE_TIMEOUT" = false →
      classifyOutcome (.fetchError msg) =
        .error (.serviceError ("SERVICE_ERROR: " ++ msg))) := by
  refine ⟨rfl, ?_, rfl, ?_, ?_, ?_⟩
  · rintro o e -
    cases e with
    | serviceTimeout m => exact Or.inl ⟨m, rfl⟩
    | serviceDown m => exact Or.inr (Or.inl ⟨m, rfl⟩)
    | serviceError m => exact Or.inr (Or.inr ⟨m, rfl⟩)
  · intro msg h
    simp [classifyOutcome, mapClassifyError, h]
  · intro status body h1 h2 h3
    simp [classifyOutcome, mapClassifyError, h1, h2, h3]
  · intro msg h1 h2 h3
    simp [classifyOutcome, mapClassifyError, h1, h2, h3]

/-- Witness for C4 at concrete inputs: a DNS failure maps to
`SERVICE_DOWN`, and a plain 404 maps to `SERVICE_ERROR`. -/
theorem classify_error_taxonomy_c4_witness :
    classifyOutcome (.fetchError "getaddrinfo ENOTFOUND predict.ultralytics.com") =
      .error (.serviceDown "SERVICE_DOWN: API server is unreachable") ∧
    classifyOutcome (.httpError 404 "Not Found") =
      .error (.serviceError
        ("SERVICE_ERROR: " ++ ("API_ERROR: " ++ toString 404 ++ " - " ++ "Not Found"))) :=
  ⟨classify_error_taxonomy_c4.2.2.2.1 "getaddrinfo ENOTFOUND predict.ultralytics.com" (by decide),
   classify_error_taxonomy_c4.2.2.2.2.1 404 "Not Found" (by decide) (by decide) (by decide)⟩

/-! ## Fingerprint computed before the data-URI strip (C10) -/

theorem stripDataUri_concat (img : String) :
    stripDataUri ("data:image/png;base64," ++ img) = img := by
  obtain ⟨l⟩ := img
  rfl

/-- C10: the cache fingerprint is the digest of the incoming base64 string
computed before the data-URI prefix is stripped; hence (absent an MD5
collision between the prefixed and unprefixed strings) submitting the same
decoded bytes once with and once without a `data:image/png;base64,` prefix
yields two distinct fingerprints, two detector calls and two cache entries
rather than a cache hit — even though the payload sent to the detector is
byte-identical in both calls. -/
theorem classify_fingerprint_c10 (md5 : String → String) (img : String)
    (t1 t2 : ℕ) (d1 d2 : ApiResponse)
    (hplain : dataUriRest img.data = none)
    (hnocoll : md5 ("data:image/png;base64," ++ img) ≠ md5 img) :
    stripDataUri ("data:image/png;base64," ++ img) = stripDataUri img ∧
    (classifyImage md5 [] t1 img (.success d1)).detectorCalled = true ∧
    (classifyImage md5 (classifyImage md5 [] t1 img (.success d1)).cache t2
        ("data:image/png;base64," ++ img) (.success d2)).detectorCalled = true ∧
    (classifyImage md5 (classifyImage md5 [] t1 img (.success d1)).cache t2
        ("data:image/png;base64," ++ img) (.success d2)).cache.map
      (fun e => e.1) = [md5 ("data:image/png;base64," ++ img), md5 img] := by
  have hstrip : stripDataUri img = img := by
    unfold stripDataUri
    rw [hplain]
  have h1 : classifyImage md5 [] t1 img (.success d1) =
      ⟨.ok (classifyDetections (extractDetections d1)),
       cachePut [] (md5 img) (classifyDetections (extractDetections d1))
         (t1 + CACHE_TTL_MS), true⟩ := by
    rw [classifyImage_miss md5 [] t1 img _ rfl]
    rfl
  have hmiss2 : cacheGet (cachePut [] (md5 img)
      (classifyDetections (extractDetections d1)) (t1 + CACHE_TTL_MS)) t2
      (md5 ("data:image/png;base64," ++ img)) = none := by
    rw [cacheGet_cachePut_ne _ _ _ _ _ _ (fun h => hnocoll h.symm)]
    rfl
  have h2 : classifyImage md5 (classifyImage md5 [] t1 img (.success d1)).cache t2
      ("data:image/png;base64," ++ img) (.success d2) =
      ⟨.ok (classifyDetections (extractDetections d2)),
       cachePut (cachePut [] (md5 img) (classifyDetections (extractDetections d1))
           (t1 + CACHE_TTL_MS))
         (md5 ("data:image/png;base64," ++ img))
         (classifyDetections (extractDetections d2)) (t2 + CACHE_TTL_MS), true⟩ := by
    rw [h1]
    exact classifyImage_miss md5 _ t2 _ _ hmiss2
  refine ⟨by rw [stripDataUri_concat, hstrip], by rw [h1], by rw [h2], ?_⟩
  rw [h2]
  have hne : ((md5 img == md5 ("data:image/png;base64," ++ img)) : Bool) = false := by
    rw [beq_eq_false_iff_ne]
    exact fun h => hnocoll h.symm
  simp [cachePut, hne]

/-- Witness for C10: identity digest, payload `"abc"`. -/
theorem classify_fingerprint_c10_witness :
    stripDataUri ("data:image/png;base64," ++ "abc") = stripDataUri "abc" ∧
    (classifyImage (fun s => s) [] 0 "abc"
      (.success ⟨some [⟨some [⟨0, q 9 10⟩]⟩], none⟩)).detectorCalled = true ∧
    (classifyImage (fun s => s)
        (classifyImage (fun s => s) [] 0 "abc"
          (.success ⟨some [⟨some [⟨0, q 9 10⟩]⟩], none⟩)).cache 7
        ("data:image/png;base64," ++ "abc")
        (.success ⟨some [⟨some [⟨0, q 9 10⟩]⟩], none⟩)).detectorCalled = true ∧
    (classifyImage (fun s => s)
        (classifyImage (fun s => s) [] 0 "abc"
          (.success ⟨some [⟨some [⟨0, q 9 10⟩]⟩], none⟩)).cache 7
        ("data:image/png;base64," ++ "abc")
        (.success ⟨some [⟨some [⟨0, q 9 10⟩]⟩], none⟩)).cache.map
      (fun e => e.1) =
      [(fun s => s) ("data:image/png;base64," ++ "abc"), (fun s => s) "abc"] :=
  classify_fingerprint_c10 (fun s => s) "abc" 0 7
    ⟨some [⟨some [⟨0, q 9 10⟩]⟩], none⟩ ⟨some [⟨some [⟨0, q 9 10⟩]⟩], none⟩
    (by decide) (by decide)

/-! ## Orchestrator theorems (C3, C5, C6, C8, C9) -/

theorem hostPersistAward_facts (req : SubmitRequest)
    (cls : Option ClassificationVerdict) (det : Bool) (u : UploadOutcome)
    (p : PersistOutcome) (l : LedgerOutcome) :
    (hostPersistAward req cls det u p l).1 ≠ .response 400 "NOT_WASTE" [] ∧
    (hostPersistAward req cls det u p l).1 ≠ .response 400 "LOW_CONFIDENCE" [] ∧
    (hostPersistAward req cls det u p l).2.uploadAttempted = true ∧
    (hostPersistAward req cls det u p l).2.detectorCalled = det := by
  unfold hostPersistAward
  cases u <;> cases p <;> simp

/-- C3: whenever classification succeeds during submit (`forceSubmit` not
set, validation passed), the submission is rejected with `NOT_WASTE` (400)
iff the verdict has `isWaste = false`; otherwise it is rejected with
`LOW_CONFIDENCE` (400) iff the verdict's confidence is below 0.7; and in
all other success cases the workflow continues into the hosting step
carrying the verdict forward. -/
theorem submit_classification_gate_c3 (dl : String → ℕ) (req : SubmitRequest)
    (c : ClassificationVerdict) (upload : UploadOutcome) (persist : PersistOutcome)
    (ledger : LedgerOutcome)
    (hval : validate dl req = none) (hforce : req.forceSubmit = false) :
    ((submit dl req (.ok c) upload persist ledger).1 =
        .response 400 "NOT_WASTE" [] ↔ c.isWaste = false) ∧
    (c.isWaste = true →
      ((submit dl req (.ok c) upload persist ledger).1 =
          .response 400 "LOW_CONFIDENCE" [] ↔ c.confidence < 7/10)) ∧
    (c.isWaste = true → ¬(c.confidence < 7/10) →
      submit dl req (.ok c) upload persist ledger =
        hostPersistAward req (some c) true upload persist ledger ∧
      (submit dl req (.ok c) upload persist ledger).2.uploadAttempted = true) := by
  rw [← q710_eq]
  have hs : submit dl req (.ok c) upload persist ledger =
      (if !c.isWaste then
        (.response 400 "NOT_WASTE" [], ⟨true, false, false, false⟩)
       else if c.confidence < q 7 10 then
        (.response 400 "LOW_CONFIDENCE" [], ⟨true, false, false, false⟩)
       else hostPersistAward req (some c) true upload persist ledger) := by
    simp [submit, hval, hforce]
  by_cases hw : c.isWaste = true
  · by_cases hconf : c.confidence < q 7 10
    · have hs2 : submit dl req (.ok c) upload persist ledger =
          (.response 400 "LOW_CONFIDENCE" [], ⟨true, false, false, false⟩) := by
        rw [hs]; simp [hw, hconf]
      refine ⟨?_, fun _ => ?_, fun _ hc => absurd hconf hc⟩
      · rw [hs2]; simp [hw]
      · rw [hs2]; simp [hconf]
    · have hs2 : submit dl req (.ok c) upload persist ledger =
          hostPersistAward req (some c) true upload persist ledger := by
        rw [hs]; simp [hw, hconf]
      refine ⟨?_, fun _ => ?_,
        fun _ _ => ⟨hs2, by
          rw [hs2]
          exact (hostPersistAward_facts req (some c) true upload persist ledger).2.2.1⟩⟩
      · rw [hs2]
        simp [(hostPersistAward_facts req (some c) true upload persist ledger).1, hw]
      · rw [hs2]
        simp [(hostPersistAward_facts req (some c) true upload persist ledger).2.1, hconf]
  · have hw' : c.isWaste = false := by simpa using hw
    have hs2 : submit dl req (.ok c) upload persist ledger =
        (.response 400 "NOT_WASTE" [], ⟨true, false, false, false⟩) := by
      rw [hs]; simp [hw']
    refine ⟨?_, fun h => absurd h (by simp [hw']), fun h _ => absurd h (by simp [hw'])⟩
    rw [hs2]; simp [hw']

/-- Witness for C3 at a 0.9-confidence waste verdict on a fully-populated
request: the submission is not rejected by the gate and continues. -/
theorem submit_classification_gate_c3_witness :
    ((submit (fun _ => 0)
        ⟨some "t", some "QUFBQQ==", some "d", some "a", some (q 1 1), some (q 2 1),
          none, false⟩
        (.ok (classifyDetections [⟨0, q 9 10⟩])) (.ok "u" "p") .ok .ok).1 =
        .response 400 "NOT_WASTE" [] ↔
        (classifyDetections [⟨0, q 9 10⟩]).isWaste = false) ∧
    ((classifyDetections [⟨0, q 9 10⟩]).isWaste = true →
      ((submit (fun _ => 0)
          ⟨some "t", some "QUFBQQ==", some "d", some "a", some (q 1 1), some (q 2 1),
            none, false⟩
          (.ok (classifyDetections [⟨0, q 9 10⟩])) (.ok "u" "p") .ok .ok).1 =
          .response 400 "LOW_CONFIDENCE" [] ↔
          (classifyDetections [⟨0, q 9 10⟩]).confidence < 7/10)) ∧
    ((classifyDetections [⟨0, q 9 10⟩]).isWaste = true →
      ¬((classifyDetections [⟨0, q 9 10⟩]).confidence < 7/10) →
      submit (fun _ => 0)
          ⟨some "t", some "QUFBQQ==", some "d", some "a", some (q 1 1), some (q 2 1),
            none, false⟩
          (.ok (classifyDetections [⟨0, q 9 10⟩])) (.ok "u" "p") .ok .ok =
        hostPersistAward
          ⟨some "t", some "QUFBQQ==", some "d", some "a", some (q 1 1), some (q 2 1),
            none, false⟩
          (some (classifyDetections [⟨0, q 9 10⟩])) true (.ok "u" "p") .ok .ok ∧
      (submit (fun _ => 0)
          ⟨some "t", some "QUFBQQ==", some "d", some "a", some (q 1 1), some (q 2 1),
            none, false⟩
          (.ok (classifyDetections [⟨0, q 9 10⟩])) (.ok "u" "p") .ok .ok).2.uploadAttempted
        = true) :=
  submit_classification_gate_c3 (fun _ => 0)
    ⟨some "t", some "QUFBQQ==", some "d", some "a", some (q 1 1), some (q 2 1),
      none, false⟩
    (classifyDetections [⟨0, q 9 10⟩]) (.ok "u" "p") .ok .ok (by decide) rfl

/-- C5 counterexample: on a request with *every* field absent — in
particular the required `image` — the handler does not reject with
`MISSING_FIELDS`/400: the first validation statement dereferences the
absent `image`, the thrown `TypeError` reaches the outer catch, and the
response is the generic 500 `INTERNAL_SERVER_ERROR`. -/
theorem submit_missing_fields_c5_counterexample :
    (submit (fun _ => 0) ⟨none, none, none, none, none, none, none, false⟩
        (.ok (classifyDetections [])) (.ok "u" "p") .ok .ok).1 =
      .response 500 "INTERNAL_SERVER_ERROR" [] ∧
    (submit (fun _ => 0) ⟨none, none, none, none, none, none, none, false⟩
        (.ok (classifyDetections [])) (.ok "u" "p") .ok .ok).1 ≠
      .response 400 "MISSING_FIELDS"
        ["title", "image", "details", "address", "location"] := by
  refine ⟨rfl, ?_⟩
  decide

/-- C5 (amended): for every submit request whose `image` field is present
and within the 5 MB decoded size, if any remaining required field is
absent/empty the submission is rejected with `MISSING_FIELDS` (400), the
response lists exactly the fields that fail their truthiness test (in
source order, latitude/longitude jointly as `"location"`), and no external
call is made. -/
theorem submit_missing_fields_c5 (dl : String → ℕ) (req : SubmitRequest)
    (img : String) (cr : Except ServiceFailure ClassificationVerdict)
    (upload : UploadOutcome) (persist : PersistOutcome) (ledger : LedgerOutcome)
    (himg : req.image = some img)
    (hsize : ¬ dl (stripDataUri img) > 5 * 1024 * 1024)
    (hmiss : missingFieldsOf req ≠ []) :
    (submit dl req cr upload persist ledger).1 =
      .response 400 "MISSING_FIELDS" (missingFieldsOf req) ∧
    (submit dl req cr upload persist ledger).2 = noEffects ∧
    (∀ f : String, f ∈ missingFieldsOf req ↔
      (f = "title" ∧ truthyStr req.title = false) ∨
      (f = "image" ∧ truthyStr req.image = false) ∨
      (f = "details" ∧ truthyStr req.details = false) ∨
      (f = "address" ∧ truthyStr req.address = false) ∨
      (f = "location" ∧ (truthyNum req.latitude && truthyNum req.longitude) = false)) := by
  have hne : (missingFieldsOf req).isEmpty = false := by
    simpa [List.isEmpty_iff] using hmiss
  refine ⟨by simp [submit, validate, himg, hsize, hne], by simp [submit, validate, himg, hsize, hne], ?_⟩
  intro f
  by_cases h1 : truthyStr req.title <;>
    by_cases h2 : truthyStr req.image <;>
      by_cases h3 : truthyStr req.details <;>
        by_cases h4 : truthyStr req.address <;>
          by_cases h5 : (truthyNum req.latitude && truthyNum req.longitude) = true <;>
            simp [missingFieldsOf, h1, h2, h3, h4, h5]

/-- Witness for C5 (amended) at a request with a small valid image but no
title, details, address, or location. -/
theorem submit_missing_fields_c5_witness :
    (submit (fun _ => 0)
        ⟨none, some "QUFBQQ==", none, none, none, none, none, false⟩
        (.ok (classifyDetections [])) (.ok "u" "p") .ok .ok).1 =
      .response 400 "MISSING_FIELDS"
        (missingFieldsOf ⟨none, some "QUFBQQ==", none, none, none, none, none, false⟩) ∧
    (submit (fun _ => 0)
        ⟨none, some "QUFBQQ==", none, none, none, none, none, false⟩
        (.ok (classifyDetections [])) (.ok "u" "p") .ok .ok).2 = noEffects ∧
    (∀ f : String,
      f ∈ missingFieldsOf ⟨none, some "QUFBQQ==", none, none, none, none, none, false⟩ ↔
      (f = "title" ∧ truthyStr (none : Option String) = false) ∨
      (f = "image" ∧ truthyStr (some "QUFBQQ==") = false) ∨
      (f = "details" ∧ truthyStr (none : Option String) = false) ∨
      (f = "address" ∧ truthyStr (none : Option String) = false) ∨
      (f = "location" ∧
        (truthyNum (none : Option ℚ) && truthyNum (none : Option ℚ)) = false)) :=
  submit_missing_fields_c5 (fun _ => 0)
    ⟨none, some "QUFBQQ==", none, none, none, none, none, false⟩
    "QUFBQQ==" (.ok (classifyDetections [])) (.ok "u" "p") .ok .ok
    rfl (by decide) (by decide)

/-- C9: the 5 MB decoded-size check runs before the missing-fields and
format checks — a request whose image decodes to more than 5 MB is rejected
`IMAGE_TOO_LARGE` (413) whatever its other fields (in particular with every
other required field absent), with no external call; and the size check
unconditionally dereferences `image` before the `'image'` missing-field
check, so a request with no image at all ends in the outer catch's 500
`INTERNAL_SERVER_ERROR`, not in `MISSING_FIELDS`. -/
theorem submit_size_check_first_c9 (dl : String → ℕ) (req : SubmitRequest)
    (img : String) (cr : Except ServiceFailure ClassificationVerdict)
    (upload : UploadOutcome) (persist : PersistOutcome) (ledger : LedgerOutcome) :
    (req.image = some img → dl (stripDataUri img) > 5 * 1024 * 1024 →
      (submit dl req cr upload persist ledger).1 =
        .response 413 "IMAGE_TOO_LARGE" [] ∧
      (submit dl req cr upload persist ledger).2 = noEffects) ∧
    (req.image = none →
      (submit dl req cr upload persist ledger).1 =
        .response 500 "INTERNAL_SERVER_ERROR" [] ∧
      (submit dl req cr upload persist ledger).2 = noEffects) := by
  constructor
  · intro himg hsize
    constructor <;> simp [submit, validate, himg, hsize]
  · intro himg
    constructor <;> simp [submit, validate, himg]

/-- Witness for C9: an oversized image on an otherwise-empty request gives
413, and an absent image gives 500. -/
theorem submit_size_check_first_c9_witness :
    ((submit (fun _ => 6 * 1024 * 1024)
        ⟨none, some "QUFBQQ==", none, none, none, none, none, false⟩
        (.ok (classifyDetections [])) (.ok "u" "p") .ok .ok).1 =
      .response 413 "IMAGE_TOO_LARGE" [] ∧
     (submit (fun _ => 6 * 1024 * 1024)
        ⟨none, some "QUFBQQ==", none, none, none, none, none, false⟩
        (.ok (classifyDetections [])) (.ok "u" "p") .ok .ok).2 = noEffects) ∧
    ((submit (fun _ => 6 * 1024 * 1024)
        ⟨none, none, none, none, none, none, none, false⟩
        (.ok (classifyDetections [])) (.ok "u" "p") .ok .ok).1 =
      .response 500 "INTERNAL_SERVER_ERROR" [] ∧
     (submit (fun _ => 6 * 1024 * 1024)
        ⟨none, none, none, none, none, none, none, false⟩
        (.ok (classifyDetections [])) (.ok "u" "p") .ok .ok).2 = noEffects) :=
  ⟨(submit_size_check_first_c9 (fun _ => 6 * 1024 * 1024)
      ⟨none, some "QUFBQQ==", none, none, none, none, none, false⟩
      "QUFBQQ==" (.ok (classifyDetections [])) (.ok "u" "p") .ok .ok).1
      rfl (by decide),
   (submit_size_check_first_c9 (fun _ => 6 * 1024 * 1024)
      ⟨none, none, none, none, none, none, none, false⟩
      "QUFBQQ==" (.ok (classifyDetections [])) (.ok "u" "p") .ok .ok).2 rfl⟩

/-- C6: with `forceSubmit` set (validation passed), the classification step
is skipped entirely — no detector call is made whatever the downstream
outcomes — and when hosting and persistence succeed the persisted report's
`aiVerification` is `null` and the response carries no classification. -/
theorem submit_force_skip_c6 (dl : String → ℕ) (req : SubmitRequest)
    (cr : Except ServiceFailure ClassificationVerdict) (upload : UploadOutcome)
    (persist : PersistOutcome) (ledger : LedgerOutcome)
    (hval : validate dl req = none) (hforce : req.forceSubmit = true) :
    (submit dl req cr upload persist ledger).2.detectorCalled = false ∧
    (∀ url pid, upload = .ok url pid → persist = .ok →
      ∃ body : SubmitSuccess,
        (submit dl req cr upload persist ledger).1 = .success 201 body ∧
        body.classification = none ∧
        body.report.aiVerification = none) := by
  have hs : submit dl req cr upload persist ledger =
      hostPersistAward req none false upload persist ledger := by
    simp [submit, hval, hforce]
  constructor
  · rw [hs]
    exact (hostPersistAward_facts req none false upload persist ledger).2.2.2
  · intro url pid hu hp
    subst hu; subst hp
    rw [hs]
    exact ⟨_, rfl, rfl, rfl⟩

/-- Witness for C6 on a fully-populated request with `forceSubmit = true`. -/
theorem submit_force_skip_c6_witness :
    (submit (fun _ => 0)
        ⟨some "t", some "QUFBQQ==", some "d", some "a", some (q 1 1), some (q 2 1),
          none, true⟩
        (.ok (classifyDetections [])) (.ok "u" "p") .ok .ok).2.detectorCalled = false ∧
    (∀ url pid, (UploadOutcome.ok "u" "p") = .ok url pid → PersistOutcome.ok = .ok →
      ∃ body : SubmitSuccess,
        (submit (fun _ => 0)
            ⟨some "t", some "QUFBQQ==", some "d", some "a", some (q 1 1), some (q 2 1),
              none, true⟩
            (.ok (classifyDetections [])) (.ok "u" "p") .ok .ok).1 = .success 201 body ∧
        body.classification = none ∧
        body.report.aiVerification = none) :=
  submit_force_skip_c6 (fun _ => 0)
    ⟨some "t", some "QUFBQQ==", some "d", some "a", some (q 1 1), some (q 2 1),
      none, true⟩
    (.ok (classifyDetections [])) (.ok "u" "p") .ok .ok (by decide) rfl

/-- C8: once the report record has been persisted (upload and save both
succeeded, the gate passed either by `forceSubmit` or by a confident waste
verdict), a failing user-ledger update does not change the outcome: the
response is identical to the all-success run — HTTP 201 with the report and
`pointsEarned` — and the ledger step was attempted. -/
theorem submit_ledger_nonfatal_c8 (dl : String → ℕ) (req : SubmitRequest)
    (cr : Except ServiceFailure ClassificationVerdict) (url pid msg : String)
    (hval : validate dl req = none)
    (hgate : req.forceSubmit = true ∨
      ∃ c, cr = .ok c ∧ c.isWaste = true ∧ ¬(c.confidence < 7/10)) :
    submit dl req cr (.ok url pid) .ok (.failure msg) =
      submit dl req cr (.ok url pid) .ok .ok ∧
    ∃ body : SubmitSuccess,
      (submit dl req cr (.ok url pid) .ok (.failure msg)).1 = .success 201 body ∧
      body.pointsEarned = pointsFor (finalReportTypeOf req.reportType) ∧
      (submit dl req cr (.ok url pid) .ok (.failure msg)).2.ledgerAttempted = true := by
  have finish : ∀ (cls : Option ClassificationVerdict) (det : Bool),
      (∀ l, submit dl req cr (.ok url pid) .ok l =
        hostPersistAward req cls det (.ok url pid) .ok l) →
      (submit dl req cr (.ok url pid) .ok (.failure msg) =
        submit dl req cr (.ok url pid) .ok .ok ∧
       ∃ body : SubmitSuccess,
        (submit dl req cr (.ok url pid) .ok (.failure msg)).1 = .success 201 body ∧
        body.pointsEarned = pointsFor (finalReportTypeOf req.reportType) ∧
        (submit dl req cr (.ok url pid) .ok (.failure msg)).2.ledgerAttempted = true) := by
    intro cls det hs
    rw [hs, hs]
    exact ⟨rfl, _, rfl, rfl, rfl⟩
  rcases hgate with hforce | ⟨c, hcr, hw, hconf⟩
  · exact finish none false (fun l => by simp [submit, hval, hforce])
  · rw [← q710_eq] at hconf
    by_cases hforce : req.forceSubmit = true
    · exact finish none false (fun l => by simp [submit, hval, hforce])
    · have hforce' : req.forceSubmit = false := by simpa using hforce
      exact finish (some c) true
        (fun l => by simp [submit, hval, hforce', hcr, hw, hconf])

/-- Witness for C8: a forced submit whose upload and save succeed but whose
ledger update fails still returns 201 with the points for the default
report type. -/
theorem submit_ledger_nonfatal_c8_witness :
    submit (fun _ => 0)
        ⟨some "t", some "QUFBQQ==", some "d", some "a", some (q 1 1), some (q 2 1),
          none, true⟩
        (.ok (classifyDetections [])) (.ok "u" "p") .ok (.failure "db down") =
      submit (fun _ => 0)
        ⟨some "t", some "QUFBQQ==", some "d", some "a", some (q 1 1), some (q 2 1),
          none, true⟩
        (.ok (classifyDetections [])) (.ok "u" "p") .ok .ok ∧
    ∃ body : SubmitSuccess,
      (submit (fun _ => 0)
          ⟨some "t", some "QUFBQQ==", some "d", some "a", some (q 1 1), some (q 2 1),
            none, true⟩
          (.ok (classifyDetections [])) (.ok "u" "p") .ok (.failure "db down")).1 =
        .success 201 body ∧
      body.pointsEarned = pointsFor (finalReportTypeOf none) ∧
      (submit (fun _ => 0)
          ⟨some "t", some "QUFBQQ==", some "d", some "a", some (q 1 1), some (q 2 1),
            none, true⟩
          (.ok (classifyDetections [])) (.ok "u" "p") .ok
            (.failure "db down")).2.ledgerAttempted = true :=
  submit_ledger_nonfatal_c8 (fun _ => 0)
    ⟨some "t", some "QUFBQQ==", some "d", some "a", some (q 1 1), some (q 2 1),
      none, true⟩
    (.ok (classifyDetections [])) "u" "p" "db down" (by decide) (Or.inl rfl)

end GreenSnap
